import Mathlib

/-!
Verification of the statement-level parser of `statements.py` (sdscp).

The parser consumes a pre-grouped token stream (code blocks, parenthesis
groups and expression tokens are already bundled by the external tokenizer)
and produces a tree of statements.  We embed the token stream, the statement
AST, the dispatcher `consume_statement`, the per-variant constructor logic,
and the parent-binding pass, and prove the claimed properties about them.

The external collaborators (`tokens.py`, `expressions.py`, `utils.py`) are
not part of the source under review; their small surface (cursor primitives,
the opaque expression sub-parser, and `bind_parent`) is modelled from the
spec where noted.
-/

namespace SDSCP

/-- Token kinds recognised by the statement layer.  Mirrors the token
classes used by `statements.py`: grouped tokens (code block, the four
parenthesis shapes), payload tokens (name, expression, rvalue, bracket),
punctuation, and one keyword kind per statement variant.  `kOther` stands
for any token kind the statement layer has no case for (e.g. a stray
operator token). -/
inductive TKind
  | kCodeBlock
  | kSemicolon
  | kColon
  | kName
  | kExpression
  | kRvalue
  | kBracket
  | kParenExpr
  | kParenArgvals
  | kParenArgnames
  | kParenFor
  | kFUNCTION
  | kCALL
  | kRETURN
  | kGOTO
  | kLABEL
  | kIF
  | kELSE
  | kSWITCH
  | kCASE
  | kDEFAULT
  | kWHILE
  | kDO
  | kFOR
  | kBREAK
  | kCONTINUE
  | kVAR
  | kSET
  | kOther
  deriving DecidableEq, Repr

/-- Tokens, as seen by the statement parser.  Grouped tokens carry their
pre-split sub-streams, mirroring the external tokenizer's contract:
`T_CodeBlock` carries the inner token stream, `T_ParenFor` carries the
three pre-split for-clause sub-streams (init tokens, condition expression
token, iteration tokens), `T_Rvalue` carries the assignment operator
symbol and the expression token (its `tokens[0]` and `tokens[1]`),
expression tokens are opaque payloads handed to the external expression
sub-parser.  `T_Other` models a token kind unknown to the dispatcher. -/
inductive Token
  | T_CodeBlock (tokens : List Token)
  | T_Semicolon
  | T_Colon
  | T_Name (value : String)
  | T_Expression (payload : String)
  | T_Rvalue (op : String) (expr : String)
  | T_Bracket (index : String)
  | T_ParenExpr (expression : String)
  | T_ParenArgvals (tokens : List Token)
  | T_ParenArgnames (tokens : List Token)
  | T_ParenFor (for_init : List Token) (for_cond : String) (for_iter : List Token)
  | T_FUNCTION
  | T_CALL
  | T_RETURN
  | T_GOTO
  | T_LABEL
  | T_IF
  | T_ELSE
  | T_SWITCH
  | T_CASE
  | T_DEFAULT
  | T_WHILE
  | T_DO
  | T_FOR
  | T_BREAK
  | T_CONTINUE
  | T_VAR
  | T_SET
  | T_Other (desc : String)

/-- Kind tag of a token. -/
def tkind : Token → TKind
  | .T_CodeBlock _ => .kCodeBlock
  | .T_Semicolon => .kSemicolon
  | .T_Colon => .kColon
  | .T_Name _ => .kName
  | .T_Expression _ => .kExpression
  | .T_Rvalue _ _ => .kRvalue
  | .T_Bracket _ => .kBracket
  | .T_ParenExpr _ => .kParenExpr
  | .T_ParenArgvals _ => .kParenArgvals
  | .T_ParenArgnames _ => .kParenArgnames
  | .T_ParenFor _ _ _ => .kParenFor
  | .T_FUNCTION => .kFUNCTION
  | .T_CALL => .kCALL
  | .T_RETURN => .kRETURN
  | .T_GOTO => .kGOTO
  | .T_LABEL => .kLABEL
  | .T_IF => .kIF
  | .T_ELSE => .kELSE
  | .T_SWITCH => .kSWITCH
  | .T_CASE => .kCASE
  | .T_DEFAULT => .kDEFAULT
  | .T_WHILE => .kWHILE
  | .T_DO => .kDO
  | .T_FOR => .kFOR
  | .T_BREAK => .kBREAK
  | .T_CONTINUE => .kCONTINUE
  | .T_VAR => .kVAR
  | .T_SET => .kSET
  | .T_Other _ => .kOther

/-- Modelled from the spec: `TokenWalker.has` of the external `tokens.py`
(not under src), a non-consuming lookahead that tests whether the next
token has the given kind; `false` at end of stream.  In our state-passing
embedding the cursor is the list of remaining tokens. -/
def hasKind (k : TKind) : List Token → Bool
  | t :: _ => tkind t == k
  | [] => false

/-- Expressions are produced by the external expression sub-parser and are
opaque to the statement layer apart from construction of the two shapes it
builds itself: `E_Literal` (used by `S_Return`'s default value, holding the
number token's text) and `E_Variable` (name plus optional index, built by
`S_Var` / `S_Assign`).  `E_Parsed` stands for the opaque result of
`expressions.parse` on an expression token's payload. -/
inductive Expression
  | E_Literal (value : String)
  | E_Variable (name : String) (index : Option String)
  | E_Parsed (payload : String)

/-- Modelled from the spec: the external expression sub-parser
(`expressions.parse`, not under src) converts one expression token into an
expression tree; it is opaque to the statement layer, so we model it as an
injective constructor on the token payload. -/
def parseExpr (payload : String) : Expression :=
  .E_Parsed payload

/-- Parse failures.  `expected` models `TokenWalker.consume` meeting a
wrong (or missing) token, `unrecognized` is the dispatcher's catch-all
raise carrying the offending token (`none` when the stream is exhausted),
`badVarOp` is `S_Var`'s construction-time error for a compound assignment
operator in a declaration, and `outOfFuel` is an artefact of the fuel used
to make the embedded recursion total (never produced on runs with enough
fuel). -/
inductive ParseError
  | expected (k : TKind) (found : Option Token)
  | unrecognized (t : Option Token)
  | badVarOp (op : String)
  | outOfFuel

/-- Statement AST, one constructor per `Statement` subclass of
`statements.py`, holding exactly the instance attributes each constructor
fills in (beyond the parent reference handled by the binding pass). -/
inductive Statement
  | S_Empty
  | S_Comment (text : String)
  | S_Goto (name : String)
  | S_Label (name : String)
  | S_Call (name : String) (args : List Expression)
  | S_Function (name : String) (args : List String) (body_st : Statement)
  | S_Return (value : Expression)
  | S_Case (value : Expression)
  | S_Default
  | S_Break
  | S_Continue
  | S_Block (children : List Statement)
  | S_Var (var : Expression) (value : Option Expression)
  | S_Assign (var : Expression) (op : String) (value : Expression)
  | S_If (cond : Expression) (then_st : Statement) (else_st : Statement)
  | S_While (cond : Expression) (body_st : Statement)
  | S_DoWhile (cond : Expression) (body_st : Statement)
  | S_For (init : List Statement) (cond : Expression) (iter : List Statement)
      (body_st : Statement)
  | S_Switch (value : Expression) (body_st : Statement)

/-- The `isinstance(st, S_Empty)` test used by `S_Block.__init__` to filter
empty statements out of a block's children. -/
def isEmptySt : Statement → Bool
  | .S_Empty => true
  | _ => false

/-- Result of one cursor-consuming step: the value or error, paired with
the cursor state (remaining tokens) after the step.  On an error the pair
carries the cursor exactly where the raising call left it, mirroring the
Python walker object surviving an exception. -/
abbrev PResult (α : Type) := Except ParseError α × List Token

/-- Modelled from the spec: `TokenWalker.consume` for a kind-only token
(keywords, punctuation): consumes the next token when it has the expected
kind, otherwise fails without consuming. -/
def consumeTok (k : TKind) (ts : List Token) : PResult Unit :=
  match ts with
  | t :: rest => if tkind t == k then (.ok (), rest) else (.error (.expected k (some t)), ts)
  | [] => (.error (.expected k none), ts)

/-- Modelled from the spec: `consume(T_Name)`, yielding the name text. -/
def consumeName (ts : List Token) : PResult String :=
  match ts with
  | .T_Name v :: rest => (.ok v, rest)
  | _ => (.error (.expected .kName ts.head?), ts)

/-- Modelled from the spec: `consume(T_Expression)`, yielding the
expression token's payload. -/
def consumeExprTok (ts : List Token) : PResult String :=
  match ts with
  | .T_Expression p :: rest => (.ok p, rest)
  | _ => (.error (.expected .kExpression ts.head?), ts)

/-- Modelled from the spec: `consume(T_Rvalue)`, yielding the assignment
operator symbol (`rv.tokens[0].value`) and the expression token
(`rv.tokens[1]`). -/
def consumeRvalue (ts : List Token) : PResult (String × String) :=
  match ts with
  | .T_Rvalue op e :: rest => (.ok (op, e), rest)
  | _ => (.error (.expected .kRvalue ts.head?), ts)

/-- Modelled from the spec: `consume(T_Bracket)`, yielding the index. -/
def consumeBracket (ts : List Token) : PResult String :=
  match ts with
  | .T_Bracket i :: rest => (.ok i, rest)
  | _ => (.error (.expected .kBracket ts.head?), ts)

/-- Modelled from the spec: `consume(T_CodeBlock)`, yielding the inner
token stream of the block. -/
def consumeCodeBlock (ts : List Token) : PResult (List Token) :=
  match ts with
  | .T_CodeBlock inner :: rest => (.ok inner, rest)
  | _ => (.error (.expected .kCodeBlock ts.head?), ts)

/-- Modelled from the spec: `consume_paren(ParenType.EXPR)`, yielding the
single expression token of the parenthesis (`paren.expression`). -/
def consumeParenExpr (ts : List Token) : PResult String :=
  match ts with
  | .T_ParenExpr c :: rest => (.ok c, rest)
  | _ => (.error (.expected .kParenExpr ts.head?), ts)

/-- Modelled from the spec: `consume_paren(ParenType.ARGVALS)`, yielding
the inner token stream (`paren.tokens`). -/
def consumeParenArgvals (ts : List Token) : PResult (List Token) :=
  match ts with
  | .T_ParenArgvals inner :: rest => (.ok inner, rest)
  | _ => (.error (.expected .kParenArgvals ts.head?), ts)

/-- Modelled from the spec: `consume_paren(ParenType.ARGNAMES)`, yielding
the inner token stream (`paren.tokens`). -/
def consumeParenArgnames (ts : List Token) : PResult (List Token) :=
  match ts with
  | .T_ParenArgnames inner :: rest => (.ok inner, rest)
  | _ => (.error (.expected .kParenArgnames ts.head?), ts)

/-- Modelled from the spec: `consume_paren(ParenType.FOR)`, yielding the
three pre-split sub-streams (`paren.for_init`, `paren.for_cond`,
`paren.for_iter`). -/
def consumeParenFor (ts : List Token) :
    PResult (List Token × String × List Token) :=
  match ts with
  | .T_ParenFor i c it :: rest => (.ok (i, c, it), rest)
  | _ => (.error (.expected .kParenFor ts.head?), ts)

/-- The argument-collection loop of `S_Call.__init__`: walk the arguments
sub-stream, consuming one expression token per argument and parsing it,
until the sub-stream is exhausted. -/
def collectArgs : List Token → Except ParseError (List Expression)
  | [] => .ok []
  | .T_Expression p :: rest =>
    match collectArgs rest with
    | .ok es => .ok (parseExpr p :: es)
    | .error e => .error e
  | t :: _ => .error (.expected .kExpression (some t))

/-- The parameter-collection loop of `S_Function.__init__`: walk the
argument-names sub-stream, consuming one name token per parameter, until
the sub-stream is exhausted. -/
def collectNames : List Token → Except ParseError (List String)
  | [] => .ok []
  | .T_Name n :: rest =>
    match collectNames rest with
    | .ok ns => .ok (n :: ns)
    | .error e => .error e
  | t :: _ => .error (.expected .kName (some t))

/-- `S_Empty.__init__` with a cursor: consumes the terminator. -/
def parseEmpty (ts : List Token) : PResult Statement :=
  match consumeTok .kSemicolon ts with
  | (.ok _, ts1) => (.ok .S_Empty, ts1)
  | (.error e, ts') => (.error e, ts')

/-- `S_Goto.__init__`: keyword, label name, terminator. -/
def parseGoto (ts : List Token) : PResult Statement :=
  match consumeTok .kGOTO ts with
  | (.error e, ts') => (.error e, ts')
  | (.ok _, ts1) =>
    match consumeName ts1 with
    | (.error e, ts') => (.error e, ts')
    | (.ok n, ts2) =>
      match consumeTok .kSemicolon ts2 with
      | (.error e, ts') => (.error e, ts')
      | (.ok _, ts3) => (.ok (.S_Goto n), ts3)

/-- `S_Label.__init__`: keyword, label name, colon. -/
def parseLabel (ts : List Token) : PResult Statement :=
  match consumeTok .kLABEL ts with
  | (.error e, ts') => (.error e, ts')
  | (.ok _, ts1) =>
    match consumeName ts1 with
    | (.error e, ts') => (.error e, ts')
    | (.ok n, ts2) =>
      match consumeTok .kColon ts2 with
      | (.error e, ts') => (.error e, ts')
      | (.ok _, ts3) => (.ok (.S_Label n), ts3)

/-- `S_Call.__init__`: keyword, function name, argument-values paren
(argument expressions collected from its sub-stream), terminator. -/
def parseCall (ts : List Token) : PResult Statement :=
  match consumeTok .kCALL ts with
  | (.error e, ts') => (.error e, ts')
  | (.ok _, ts1) =>
    match consumeName ts1 with
    | (.error e, ts') => (.error e, ts')
    | (.ok n, ts2) =>
      match consumeParenArgvals ts2 with
      | (.error e, ts') => (.error e, ts')
      | (.ok inner, ts3) =>
        match collectArgs inner with
        | .error e => (.error e, ts3)
        | .ok args =>
          match consumeTok .kSemicolon ts3 with
          | (.error e, ts') => (.error e, ts')
          | (.ok _, ts4) => (.ok (.S_Call n args), ts4)

/-- `S_Return.__init__`: keyword, then either an explicit expression token
(parsed as the value) or, when the next token is not an expression token,
the synthesised default value `E_Literal(T_Number('0'))`; terminator. -/
def parseReturn (ts : List Token) : PResult Statement :=
  match consumeTok .kRETURN ts with
  | (.error e, ts') => (.error e, ts')
  | (.ok _, ts1) =>
    if hasKind .kExpression ts1 then
      match consumeExprTok ts1 with
      | (.error e, ts') => (.error e, ts')
      | (.ok p, ts2) =>
        match consumeTok .kSemicolon ts2 with
        | (.error e, ts') => (.error e, ts')
        | (.ok _, ts3) => (.ok (.S_Return (parseExpr p)), ts3)
    else
      match consumeTok .kSemicolon ts1 with
      | (.error e, ts') => (.error e, ts')
      | (.ok _, ts2) => (.ok (.S_Return (.E_Literal "0")), ts2)

/-- `S_Case.__init__`: keyword, value expression token, colon. -/
def parseCase (ts : List Token) : PResult Statement :=
  match consumeTok .kCASE ts with
  | (.error e, ts') => (.error e, ts')
  | (.ok _, ts1) =>
    match consumeExprTok ts1 with
    | (.error e, ts') => (.error e, ts')
    | (.ok p, ts2) =>
      match consumeTok .kColon ts2 with
      | (.error e, ts') => (.error e, ts')
      | (.ok _, ts3) => (.ok (.S_Case (parseExpr p)), ts3)

/-- `S_Default.__init__` with a cursor: keyword, colon. -/
def parseDefault (ts : List Token) : PResult Statement :=
  match consumeTok .kDEFAULT ts with
  | (.error e, ts') => (.error e, ts')
  | (.ok _, ts1) =>
    match consumeTok .kColon ts1 with
    | (.error e, ts') => (.error e, ts')
    | (.ok _, ts2) => (.ok .S_Default, ts2)

/-- `S_Break.__init__` with a cursor: keyword, terminator. -/
def parseBreak (ts : List Token) : PResult Statement :=
  match consumeTok .kBREAK ts with
  | (.error e, ts') => (.error e, ts')
  | (.ok _, ts1) =>
    match consumeTok .kSemicolon ts1 with
    | (.error e, ts') => (.error e, ts')
    | (.ok _, ts2) => (.ok .S_Break, ts2)

/-- `S_Continue.__init__` with a cursor: keyword, terminator. -/
def parseContinue (ts : List Token) : PResult Statement :=
  match consumeTok .kCONTINUE ts with
  | (.error e, ts') => (.error e, ts')
  | (.ok _, ts1) =>
    match consumeTok .kSemicolon ts1 with
    | (.error e, ts') => (.error e, ts')
    | (.ok _, ts2) => (.ok .S_Continue, ts2)

/-- `S_Var.__init__`: keyword, variable name, then an optional rvalue.
With an rvalue present, an assignment operator other than plain `=` is a
construction-time error (`Cannot use ... in variable declaration`), raised
before the terminator is consumed; with plain `=` the value is the parsed
initializer expression.  With no rvalue the value stays `None` (despite
the source comment saying `synthetic zero value`).  Terminator last. -/
def parseVar (ts : List Token) : PResult Statement :=
  match consumeTok .kVAR ts with
  | (.error e, ts') => (.error e, ts')
  | (.ok _, ts1) =>
    match consumeName ts1 with
    | (.error e, ts') => (.error e, ts')
    | (.ok n, ts2) =>
      if hasKind .kRvalue ts2 then
        match consumeRvalue ts2 with
        | (.error e, ts') => (.error e, ts')
        | (.ok (op, ex), ts3) =>
          if op != "=" then
            (.error (.badVarOp op), ts3)
          else
            match consumeTok .kSemicolon ts3 with
            | (.error e, ts') => (.error e, ts')
            | (.ok _, ts4) =>
              (.ok (.S_Var (.E_Variable n none) (some (parseExpr ex))), ts4)
      else
        match consumeTok .kSemicolon ts2 with
        | (.error e, ts') => (.error e, ts')
        | (.ok _, ts3) => (.ok (.S_Var (.E_Variable n none) none), ts3)

/-- `S_Assign.__init__`: keyword, variable name, optional bracket (index),
rvalue (operator kept verbatim, expression parsed), terminator. -/
def parseAssign (ts : List Token) : PResult Statement :=
  match consumeTok .kSET ts with
  | (.error e, ts') => (.error e, ts')
  | (.ok _, ts1) =>
    match consumeName ts1 with
    | (.error e, ts') => (.error e, ts')
    | (.ok n, ts2) =>
      match
        (if hasKind .kBracket ts2 then
          match consumeBracket ts2 with
          | (.error e, ts') => (.error e, ts')
          | (.ok i, ts3) => (.ok (some i), ts3)
        else ((.ok none : Except ParseError (Option String)), ts2)) with
      | (.error e, ts') => (.error e, ts')
      | (.ok index, ts3) =>
        match consumeRvalue ts3 with
        | (.error e, ts') => (.error e, ts')
        | (.ok (op, ex), ts4) =>
          match consumeTok .kSemicolon ts4 with
          | (.error e, ts') => (.error e, ts')
          | (.ok _, ts5) =>
            (.ok (.S_Assign (.E_Variable n index) op (parseExpr ex)), ts5)

mutual

/-- `StTokenWalker.consume_statement`: dispatch on the kind of the next
token through the source's fixed sequence of `has` checks; when no variant
matches, fail with the catch-all error carrying the offending token and
leave the cursor untouched.  The `Nat` argument is fuel bounding recursion
depth, an artefact of the embedding (the Python recursion is bounded by
the nesting of the token stream). -/
def consumeStatement : Nat → List Token → PResult Statement
  | 0, ts => (.error .outOfFuel, ts)
  | fuel + 1, ts =>
    if hasKind .kCodeBlock ts then parseBlock fuel ts
    else if hasKind .kSemicolon ts then parseEmpty ts
    else if hasKind .kFUNCTION ts then parseFunction fuel ts
    else if hasKind .kCALL ts then parseCall ts
    else if hasKind .kRETURN ts then parseReturn ts
    else if hasKind .kGOTO ts then parseGoto ts
    else if hasKind .kLABEL ts then parseLabel ts
    else if hasKind .kIF ts then parseIf fuel ts
    else if hasKind .kSWITCH ts then parseSwitch fuel ts
    else if hasKind .kCASE ts then parseCase ts
    else if hasKind .kDEFAULT ts then parseDefault ts
    else if hasKind .kWHILE ts then parseWhile fuel ts
    else if hasKind .kDO ts then parseDoWhile fuel ts
    else if hasKind .kFOR ts then parseFor fuel ts
    else if hasKind .kBREAK ts then parseBreak ts
    else if hasKind .kCONTINUE ts then parseContinue ts
    else if hasKind .kVAR ts then parseVar ts
    else if hasKind .kSET ts then parseAssign ts
    else (.error (.unrecognized ts.head?), ts)

/-- `S_Block.__init__`: consume the code-block token, then collect all
child statements from its inner stream, discarding empty statements. -/
def parseBlock : Nat → List Token → PResult Statement
  | 0, ts => (.error .outOfFuel, ts)
  | fuel + 1, ts =>
    match consumeCodeBlock ts with
    | (.error e, ts') => (.error e, ts')
    | (.ok inner, ts1) =>
      match blockChildren fuel inner with
      | .error e => (.error e, ts1)
      | .ok ch => (.ok (.S_Block ch), ts1)

/-- The child-collection loop of `S_Block.__init__`: consume statements
until the inner stream is exhausted, appending each one that is not an
`S_Empty`. -/
def blockChildren : Nat → List Token → Except ParseError (List Statement)
  | _, [] => .ok []
  | 0, _ :: _ => .error .outOfFuel
  | fuel + 1, t :: ts =>
    match consumeStatement fuel (t :: ts) with
    | (.error e, _) => .error e
    | (.ok st, rest) =>
      match blockChildren fuel rest with
      | .error e => .error e
      | .ok ch => .ok (if isEmptySt st then ch else st :: ch)

/-- The zero-or-more statement loop used by `parse` (top level) and by
`S_For.__init__` on the init and iteration sub-streams: consume statements
until the stream is exhausted, keeping every one (no filtering). -/
def parseStatements : Nat → List Token → Except ParseError (List Statement)
  | _, [] => .ok []
  | 0, _ :: _ => .error .outOfFuel
  | fuel + 1, t :: ts =>
    match consumeStatement fuel (t :: ts) with
    | (.error e, _) => .error e
    | (.ok st, rest) =>
      match parseStatements fuel rest with
      | .error e => .error e
      | .ok sx => .ok (st :: sx)

/-- `S_Function.__init__`: keyword, name, argument-names paren (parameter
names collected from its sub-stream), then the body as a block. -/
def parseFunction : Nat → List Token → PResult Statement
  | 0, ts => (.error .outOfFuel, ts)
  | fuel + 1, ts =>
    match consumeTok .kFUNCTION ts with
    | (.error e, ts') => (.error e, ts')
    | (.ok _, ts1) =>
      match consumeName ts1 with
      | (.error e, ts') => (.error e, ts')
      | (.ok n, ts2) =>
        match consumeParenArgnames ts2 with
        | (.error e, ts') => (.error e, ts')
        | (.ok inner, ts3) =>
          match collectNames inner with
          | .error e => (.error e, ts3)
          | .ok args =>
            match parseBlock fuel ts3 with
            | (.error e, ts') => (.error e, ts')
            | (.ok body, ts4) => (.ok (.S_Function n args body), ts4)

/-- `S_If.__init__`: keyword, condition paren, then-branch via a full
`consume_statement`; when an `ELSE` keyword follows, the else-branch is
another full `consume_statement`, otherwise it is a synthetic `S_Empty`. -/
def parseIf : Nat → List Token → PResult Statement
  | 0, ts => (.error .outOfFuel, ts)
  | fuel + 1, ts =>
    match consumeTok .kIF ts with
    | (.error e, ts') => (.error e, ts')
    | (.ok _, ts1) =>
      match consumeParenExpr ts1 with
      | (.error e, ts') => (.error e, ts')
      | (.ok c, ts2) =>
        match consumeStatement fuel ts2 with
        | (.error e, ts') => (.error e, ts')
        | (.ok thenSt, ts3) =>
          if hasKind .kELSE ts3 then
            match consumeTok .kELSE ts3 with
            | (.error e, ts') => (.error e, ts')
            | (.ok _, ts4) =>
              match consumeStatement fuel ts4 with
              | (.error e, ts') => (.error e, ts')
              | (.ok elseSt, ts5) =>
                (.ok (.S_If (parseExpr c) thenSt elseSt), ts5)
          else
            (.ok (.S_If (parseExpr c) thenSt .S_Empty), ts3)

/-- `S_While.__init__`: keyword, condition paren, body statement. -/
def parseWhile : Nat → List Token → PResult Statement
  | 0, ts => (.error .outOfFuel, ts)
  | fuel + 1, ts =>
    match consumeTok .kWHILE ts with
    | (.error e, ts') => (.error e, ts')
    | (.ok _, ts1) =>
      match consumeParenExpr ts1 with
      | (.error e, ts') => (.error e, ts')
      | (.ok c, ts2) =>
        match consumeStatement fuel ts2 with
        | (.error e, ts') => (.error e, ts')
        | (.ok body, ts3) => (.ok (.S_While (parseExpr c) body), ts3)

/-- `S_DoWhile.__init__`: keyword, body statement, `WHILE` keyword,
condition paren, terminator. -/
def parseDoWhile : Nat → List Token → PResult Statement
  | 0, ts => (.error .outOfFuel, ts)
  | fuel + 1, ts =>
    match consumeTok .kDO ts with
    | (.error e, ts') => (.error e, ts')
    | (.ok _, ts1) =>
      match consumeStatement fuel ts1 with
      | (.error e, ts') => (.error e, ts')
      | (.ok body, ts2) =>
        match consumeTok .kWHILE ts2 with
        | (.error e, ts') => (.error e, ts')
        | (.ok _, ts3) =>
          match consumeParenExpr ts3 with
          | (.error e, ts') => (.error e, ts')
          | (.ok c, ts4) =>
            match consumeTok .kSemicolon ts4 with
            | (.error e, ts') => (.error e, ts')
            | (.ok _, ts5) => (.ok (.S_DoWhile (parseExpr c) body), ts5)

/-- `S_For.__init__`: keyword, for-paren with the three pre-split
sub-streams; the condition sub-stream is parsed as exactly one expression,
the init and iteration sub-streams as zero-or-more statements each on its
own fresh walker, then the loop body as one statement from the outer
cursor. -/
def parseFor : Nat → List Token → PResult Statement
  | 0, ts => (.error .outOfFuel, ts)
  | fuel + 1, ts =>
    match consumeTok .kFOR ts with
    | (.error e, ts') => (.error e, ts')
    | (.ok _, ts1) =>
      match consumeParenFor ts1 with
      | (.error e, ts') => (.error e, ts')
      | (.ok (i, c, it), ts2) =>
        match parseStatements fuel i with
        | .error e => (.error e, ts2)
        | .ok initSts =>
          match parseStatements fuel it with
          | .error e => (.error e, ts2)
          | .ok iterSts =>
            match consumeStatement fuel ts2 with
            | (.error e, ts') => (.error e, ts')
            | (.ok body, ts3) =>
              (.ok (.S_For initSts (parseExpr c) iterSts body), ts3)

/-- `S_Switch.__init__`: keyword, value paren, body delegated to the block
constructor. -/
def parseSwitch : Nat → List Token → PResult Statement
  | 0, ts => (.error .outOfFuel, ts)
  | fuel + 1, ts =>
    match consumeTok .kSWITCH ts with
    | (.error e, ts') => (.error e, ts')
    | (.ok _, ts1) =>
      match consumeParenExpr ts1 with
      | (.error e, ts') => (.error e, ts')
      | (.ok c, ts2) =>
        match parseBlock fuel ts2 with
        | (.error e, ts') => (.error e, ts')
        | (.ok body, ts3) => (.ok (.S_Switch (parseExpr c) body), ts3)

end

/-- `parse(tokens)`, the top-level driver: repeatedly consume one statement
until the walker is exhausted, appending every consumed statement (empty
statements included) in cursor order. -/
def parse (fuel : Nat) (tokens : List Token) :
    Except ParseError (List Statement) :=
  parseStatements fuel tokens

/-! ### Parent binding

`bind_parent` lives in `utils.SyntaxNode` (not under src); the spec gives
its contract: set the receiver's parent reference, then invoke the
per-variant `_bind_children`, which calls `bind_parent(self)` on every
direct child.  We model the mutable object graph as a tree whose every
node carries a parent field; nodes are addressed by paths (lists of child
slot indices) and a parent reference is the referenced node's path. -/

/-- A node of the object graph that carries only a parent reference beside
an opaque value: annotated expressions (`Expression` values, opaque to the
statement layer) and the annotated assignment-operator token bound by
`S_Assign._bind_children`. -/
structure Ann (α : Type) where
  val : α
  par : Option (List Nat)

mutual

/-- Statement nodes of the object graph: the statement AST with a parent
field on every statement node and on every bound sub-node (expressions,
the assignment operator token).  One constructor per `Statement` subclass,
holding the same fields as `Statement` plus the parent references. -/
inductive AStmt
  | aEmpty (par : Option (List Nat))
  | aComment (text : String) (par : Option (List Nat))
  | aGoto (name : String) (par : Option (List Nat))
  | aLabel (name : String) (par : Option (List Nat))
  | aCall (name : String) (args : List (Ann Expression)) (par : Option (List Nat))
  | aFunction (name : String) (args : List String) (body_st : AStmt)
      (par : Option (List Nat))
  | aReturn (value : Ann Expression) (par : Option (List Nat))
  | aCase (value : Ann Expression) (par : Option (List Nat))
  | aDefault (par : Option (List Nat))
  | aBreak (par : Option (List Nat))
  | aContinue (par : Option (List Nat))
  | aBlock (children : AStmtList) (par : Option (List Nat))
  | aVar (var : Ann Expression) (value : Option (Ann Expression))
      (par : Option (List Nat))
  | aAssign (var : Ann Expression) (op : Ann String) (value : Ann Expression)
      (par : Option (List Nat))
  | aIf (cond : Ann Expression) (then_st : AStmt) (else_st : AStmt)
      (par : Option (List Nat))
  | aWhile (cond : Ann Expression) (body_st : AStmt) (par : Option (List Nat))
  | aDoWhile (cond : Ann Expression) (body_st : AStmt) (par : Option (List Nat))
  | aFor (init : AStmtList) (cond : Ann Expression) (iter : AStmtList)
      (body_st : AStmt) (par : Option (List Nat))
  | aSwitch (value : Ann Expression) (body_st : AStmt) (par : Option (List Nat))

/-- A list of statement nodes (block children, for-init/iter lists). -/
inductive AStmtList
  | anil
  | acons (s : AStmt) (rest : AStmtList)

end

/-- Modelled from the spec: `Expression.bind_parent` (and the token's
`bind_parent` used on `S_Assign`'s operator) for nodes opaque to the
statement layer: overwrite the node's parent reference. -/
def bindAnn {α : Type} (a : Ann α) (ρ : List Nat) : Ann α :=
  { val := a.val, par := some ρ }

mutual

/-- Modelled from the spec: `bind_parent(self, parent)` followed by the
per-variant `_bind_children` of `statements.py`.  `bindA t π ρ` binds the
node `t`, living at path `π`, to the parent referenced by `ρ`: it
overwrites `t`'s parent reference with `ρ` and recursively rebinds every
child listed in `t`'s `_bind_children` to `t` itself (path `π`).  Child
slot paths: single-statement children sit at `π ++ [j]` for a fixed slot
index `j`, list children of slot `j` sit below `π ++ [j]`. -/
def bindA : AStmt → List Nat → List Nat → AStmt
  | .aEmpty _, _, ρ => .aEmpty (some ρ)
  | .aComment tx _, _, ρ => .aComment tx (some ρ)
  | .aGoto n _, _, ρ => .aGoto n (some ρ)
  | .aLabel n _, _, ρ => .aLabel n (some ρ)
  | .aCall n args _, π, ρ =>
    .aCall n (args.map (fun a => bindAnn a π)) (some ρ)
  | .aFunction n args b _, π, ρ =>
    .aFunction n args (bindA b (π ++ [0]) π) (some ρ)
  | .aReturn v _, π, ρ => .aReturn (bindAnn v π) (some ρ)
  | .aCase v _, π, ρ => .aCase (bindAnn v π) (some ρ)
  | .aDefault _, _, ρ => .aDefault (some ρ)
  | .aBreak _, _, ρ => .aBreak (some ρ)
  | .aContinue _, _, ρ => .aContinue (some ρ)
  | .aBlock ch _, π, ρ => .aBlock (bindAList ch π (π ++ [0]) 0) (some ρ)
  | .aVar v val _, π, ρ =>
    .aVar (bindAnn v π) (val.map (fun a => bindAnn a π)) (some ρ)
  | .aAssign v o val _, π, ρ =>
    .aAssign (bindAnn v π) (bindAnn o π) (bindAnn val π) (some ρ)
  | .aIf c t e _, π, ρ =>
    .aIf (bindAnn c π) (bindA t (π ++ [1]) π) (bindA e (π ++ [2]) π) (some ρ)
  | .aWhile c b _, π, ρ =>
    .aWhile (bindAnn c π) (bindA b (π ++ [1]) π) (some ρ)
  | .aDoWhile c b _, π, ρ =>
    .aDoWhile (bindAnn c π) (bindA b (π ++ [1]) π) (some ρ)
  | .aFor ini c ite b _, π, ρ =>
    .aFor (bindAList ini π (π ++ [0]) 0) (bindAnn c π)
      (bindAList ite π (π ++ [2]) 0) (bindA b (π ++ [3]) π) (some ρ)
  | .aSwitch v b _, π, ρ =>
    .aSwitch (bindAnn v π) (bindA b (π ++ [1]) π) (some ρ)

/-- The `for s in ...: s.bind_parent(self)` loops of `_bind_children`:
bind each statement of the list to the owner node at path `owner`, the
`j`-th element living at `base ++ [i + j]`. -/
def bindAList : AStmtList → List Nat → List Nat → Nat → AStmtList
  | .anil, _, _, _ => .anil
  | .acons s rest, owner, base, i =>
    .acons (bindA s (base ++ [i]) owner) (bindAList rest owner base (i + 1))

end

/-! ### No-cursor construction

Each `Statement` subclass constructor takes `tw=None` by default.  The
guarded constructors (`if tw is None: return`, or `if tw is not None` in
`S_Empty`, or a constructor with no cursor argument at all in `S_Comment`)
return a synthetic node without touching the cursor; `S_Default`,
`S_Break` and `S_Continue` call `tw.consume(...)` unconditionally, which
dereferences the absent cursor and fails. -/

/-- The closed set of statement variants (one tag per `Statement`
subclass). -/
inductive StKind
  | sEmpty
  | sComment
  | sGoto
  | sLabel
  | sCall
  | sFunction
  | sReturn
  | sCase
  | sDefault
  | sBreak
  | sContinue
  | sBlock
  | sVar
  | sAssign
  | sIf
  | sWhile
  | sDoWhile
  | sFor
  | sSwitch
  deriving DecidableEq

/-- Failure of a no-cursor construction: the constructor dereferences the
absent cursor (`tw.consume(...)` on `None`). -/
inductive BuildError
  | noneDereference
  deriving DecidableEq

/-- Invoking each variant's constructor without a cursor, following each
`__init__` body of `statements.py` at `tw=None`: the constructors that
guard the absent cursor return their synthetic node (modelled as success);
`S_Default.__init__`, `S_Break.__init__` and `S_Continue.__init__` run
`tw.consume(...)` on the absent cursor and fail. -/
def noCursorNew : StKind → Except BuildError Unit
  | .sEmpty => .ok ()
  | .sComment => .ok ()
  | .sGoto => .ok ()
  | .sLabel => .ok ()
  | .sCall => .ok ()
  | .sFunction => .ok ()
  | .sReturn => .ok ()
  | .sCase => .ok ()
  | .sDefault => .error .noneDereference
  | .sBreak => .error .noneDereference
  | .sContinue => .error .noneDereference
  | .sBlock => .ok ()
  | .sVar => .ok ()
  | .sAssign => .ok ()
  | .sIf => .ok ()
  | .sWhile => .ok ()
  | .sDoWhile => .ok ()
  | .sFor => .ok ()
  | .sSwitch => .ok ()

/-! ### Theorems -/

/-- The token kinds for which the dispatcher's successive `has` checks
have a case (the fixed kind-to-variant table of `consume_statement`);
every other kind falls through to the catch-all raise. -/
def recognizedKind : TKind → Bool
  | .kCodeBlock => true
  | .kSemicolon => true
  | .kFUNCTION => true
  | .kCALL => true
  | .kRETURN => true
  | .kGOTO => true
  | .kLABEL => true
  | .kIF => true
  | .kSWITCH => true
  | .kCASE => true
  | .kDEFAULT => true
  | .kWHILE => true
  | .kDO => true
  | .kFOR => true
  | .kBREAK => true
  | .kCONTINUE => true
  | .kVAR => true
  | .kSET => true
  | _ => false

/-- Claim C1: when the first token's kind matches no statement variant,
`consume_statement` fails with the catch-all parse error identifying the
offending token, and the cursor (the remaining-token state of the result)
is exactly the input stream: no token is consumed before the failure. -/
theorem C1_dispatch_unrecognized (fuel : Nat) (t : Token) (rest : List Token)
    (h : recognizedKind (tkind t) = false) :
    consumeStatement (fuel + 1) (t :: rest) =
      (.error (.unrecognized (some t)), t :: rest) := by
  cases t <;> first
    | exact rfl
    | simp [recognizedKind, tkind] at h

/-- Witness for C1 at a concrete stray operator token. -/
theorem C1_dispatch_unrecognized_inst :
    consumeStatement 1 [Token.T_Other "+"] =
      (.error (.unrecognized (some (Token.T_Other "+"))), [Token.T_Other "+"]) :=
  C1_dispatch_unrecognized 0 (Token.T_Other "+") [] rfl

/-- Claim C3: a Return statement constructed with no expression token
after the `RETURN` keyword carries the literal numeric zero as its value;
with an expression token present, the value is the parse of that
expression. -/
theorem C3_return_default_zero :
    (∀ (fuel : Nat) (rest : List Token),
      consumeStatement (fuel + 1)
          (Token.T_RETURN :: Token.T_Semicolon :: rest) =
        (.ok (.S_Return (.E_Literal "0")), rest)) ∧
    (∀ (fuel : Nat) (p : String) (rest : List Token),
      consumeStatement (fuel + 1)
          (Token.T_RETURN :: Token.T_Expression p :: Token.T_Semicolon :: rest) =
        (.ok (.S_Return (parseExpr p)), rest)) :=
  ⟨fun _ _ => rfl, fun _ _ _ => rfl⟩

/-- Claim C4: a Var declaration whose initializer uses any assignment
operator other than plain `=` fails at construction time with the
declaration-operator parse error; with plain `=` construction succeeds and
the value is the parsed initializer expression. -/
theorem C4_var_compound_op :
    (∀ (fuel : Nat) (n op e : String) (rest : List Token), op ≠ "=" →
      consumeStatement (fuel + 1)
          (Token.T_VAR :: Token.T_Name n :: Token.T_Rvalue op e :: rest) =
        (.error (.badVarOp op), rest)) ∧
    (∀ (fuel : Nat) (n e : String) (rest : List Token),
      consumeStatement (fuel + 1)
          (Token.T_VAR :: Token.T_Name n :: Token.T_Rvalue "=" e ::
            Token.T_Semicolon :: rest) =
        (.ok (.S_Var (.E_Variable n none) (some (parseExpr e))), rest)) := by
  constructor
  · intro fuel n op e rest h
    show parseVar
        (Token.T_VAR :: Token.T_Name n :: Token.T_Rvalue op e :: rest) = _
    unfold parseVar
    simp [consumeTok, consumeName, consumeRvalue, hasKind, tkind,
      bne_iff_ne, h]
  · intro fuel n e rest
    rfl

/-- Witness for C4 at the compound operator of the spec's example. -/
theorem C4_var_compound_op_inst :
    consumeStatement 1
        [Token.T_VAR, Token.T_Name "x", Token.T_Rvalue "+=" "1"] =
      (.error (.badVarOp "+="), []) :=
  C4_var_compound_op.1 0 "x" "+=" "1" [] (by decide)

/-- Claim C5: a Var declaration constructed with no initializer carries no
value at all (`none`), with no synthetic zero attached. -/
theorem C5_var_value_absent (fuel : Nat) (n : String) (rest : List Token) :
    consumeStatement (fuel + 1)
        (Token.T_VAR :: Token.T_Name n :: Token.T_Semicolon :: rest) =
      (.ok (.S_Var (.E_Variable n none) none), rest) :=
  rfl

/-! One-step unfolding equations for the mutually recursive parser
functions, proved definitionally (the automatically generated equation
lemmas are impractically large for the mutual block, so we state the steps
we need by hand). -/

/-- The block child loop on an exhausted stream. -/
theorem blockChildren_nil (fuel : Nat) : blockChildren fuel [] = .ok [] :=
  match fuel with
  | 0 => rfl
  | _ + 1 => rfl

/-- The block child loop out of fuel. -/
theorem blockChildren_zero (t : Token) (ts : List Token) :
    blockChildren 0 (t :: ts) = .error .outOfFuel :=
  rfl

/-- One iteration of the block child loop. -/
theorem blockChildren_cons (fuel : Nat) (t : Token) (ts : List Token) :
    blockChildren (fuel + 1) (t :: ts) =
      match consumeStatement fuel (t :: ts) with
      | (.error e, _) => .error e
      | (.ok st, rest) =>
        match blockChildren fuel rest with
        | .error e => .error e
        | .ok ch => .ok (if isEmptySt st then ch else st :: ch) :=
  rfl

/-- One iteration of the block child loop when the statement parse is
known. -/
theorem blockChildren_cons_ok (fuel : Nat) (t : Token) (ts rest : List Token)
    (st : Statement) (h : consumeStatement fuel (t :: ts) = (.ok st, rest)) :
    blockChildren (fuel + 1) (t :: ts) =
      match blockChildren fuel rest with
      | .error e => .error e
      | .ok ch => .ok (if isEmptySt st then ch else st :: ch) := by
  rw [blockChildren_cons, h]

/-- The top-level / for-clause statement loop on an exhausted stream. -/
theorem parseStatements_nil (fuel : Nat) : parseStatements fuel [] = .ok [] :=
  match fuel with
  | 0 => rfl
  | _ + 1 => rfl

/-- One iteration of the statement loop when the statement parse is
known. -/
theorem parseStatements_cons_ok (fuel : Nat) (t : Token) (ts rest : List Token)
    (st : Statement) (h : consumeStatement fuel (t :: ts) = (.ok st, rest)) :
    parseStatements (fuel + 1) (t :: ts) =
      match parseStatements fuel rest with
      | .error e => .error e
      | .ok sx => .ok (st :: sx) := by
  show (match consumeStatement fuel (t :: ts) with
    | (.error e, _) => (.error e : Except ParseError (List Statement))
    | (.ok st, rest) =>
      match parseStatements fuel rest with
      | .error e => .error e
      | .ok sx => .ok (st :: sx)) = _
  rw [h]

/-- The block constructor out of fuel. -/
theorem parseBlock_zero (ts : List Token) :
    parseBlock 0 ts = (.error .outOfFuel, ts) :=
  rfl

/-- One step of the block constructor. -/
theorem parseBlock_step (fuel : Nat) (ts : List Token) :
    parseBlock (fuel + 1) ts =
      match consumeCodeBlock ts with
      | (.error e, ts') => (.error e, ts')
      | (.ok inner, ts1) =>
        match blockChildren fuel inner with
        | .error e => (.error e, ts1)
        | .ok ch => (.ok (.S_Block ch), ts1) :=
  rfl

/-- The block constructor once the code-block token is consumed. -/
theorem parseBlock_ok (fuel : Nat) (ts ts1 inner : List Token)
    (h : consumeCodeBlock ts = (.ok inner, ts1)) :
    parseBlock (fuel + 1) ts =
      match blockChildren fuel inner with
      | .error e => (.error e, ts1)
      | .ok ch => (.ok (.S_Block ch), ts1) := by
  rw [parseBlock_step, h]

/-- A statement the block filter lets through is not an `S_Empty`. -/
theorem ne_empty_of_isEmptySt_false {st : Statement}
    (h : isEmptySt st = false) : st ≠ .S_Empty := by
  intro he
  subst he
  simp [isEmptySt] at h

/-- The child-collection loop of `S_Block.__init__` never returns a list
containing an `S_Empty`. -/
theorem blockChildren_no_empty (fuel : Nat) :
    ∀ (ts : List Token) (ch : List Statement),
      blockChildren fuel ts = .ok ch → Statement.S_Empty ∉ ch := by
  induction fuel with
  | zero =>
    intro ts ch h
    cases ts with
    | nil =>
      rw [blockChildren_nil] at h
      injection h with h
      subst h
      exact List.not_mem_nil _
    | cons t ts' =>
      rw [blockChildren_zero] at h
      exact Except.noConfusion h
  | succ k ih =>
    intro ts ch h
    cases ts with
    | nil =>
      rw [blockChildren_nil] at h
      injection h with h
      subst h
      exact List.not_mem_nil _
    | cons t ts' =>
      rcases hcs : consumeStatement k (t :: ts') with ⟨r, rest⟩
      cases r with
      | error e =>
        rw [blockChildren_cons, hcs] at h
        exact Except.noConfusion h
      | ok st =>
        rw [blockChildren_cons_ok k t ts' rest st hcs] at h
        cases hbc : blockChildren k rest with
        | error e =>
          rw [hbc] at h
          exact Except.noConfusion h
        | ok ch2 =>
          rw [hbc] at h
          injection h with h
          subst h
          cases hst : isEmptySt st with
          | true =>
            rw [if_pos rfl]
            exact ih rest ch2 hbc
          | false =>
            rw [if_neg Bool.false_ne_true]
            rw [List.mem_cons, not_or]
            exact ⟨fun he => ne_empty_of_isEmptySt_false hst he.symm,
              ih rest ch2 hbc⟩

/-- On a stream of bare terminators the block child loop returns the
empty list. -/
theorem blockChildren_replicate (n : Nat) :
    blockChildren (n + 1) (List.replicate n Token.T_Semicolon) = .ok [] := by
  induction n with
  | zero => rfl
  | succ k ih =>
    rw [List.replicate_succ,
      blockChildren_cons_ok (k + 1) Token.T_Semicolon
        (List.replicate k Token.T_Semicolon)
        (List.replicate k Token.T_Semicolon) .S_Empty rfl,
      ih]
    rfl

/-- Claim C2: a successfully constructed Block's child list contains no
Empty statement; in particular a code block holding only terminators
yields an empty child list. -/
theorem C2_block_no_empty :
    (∀ (fuel : Nat) (ts ts' : List Token) (ch : List Statement),
        parseBlock fuel ts = (.ok (.S_Block ch), ts') →
        Statement.S_Empty ∉ ch) ∧
    (∀ n : Nat,
        parseBlock (n + 1 + 1)
            [Token.T_CodeBlock (List.replicate n Token.T_Semicolon)] =
          (.ok (.S_Block []), [])) := by
  constructor
  · intro fuel ts ts' ch h
    cases fuel with
    | zero =>
      rw [parseBlock_zero] at h
      exact Except.noConfusion (congrArg Prod.fst h)
    | succ k =>
      rcases hcb : consumeCodeBlock ts with ⟨r, ts1⟩
      cases r with
      | error e =>
        rw [parseBlock_step, hcb] at h
        exact Except.noConfusion
          (show (Except.error e : Except ParseError Statement) =
            .ok (.S_Block ch) from congrArg Prod.fst h)
      | ok inner =>
        rw [parseBlock_ok k ts ts1 inner hcb] at h
        cases hbc : blockChildren k inner with
        | error e =>
          rw [hbc] at h
          exact Except.noConfusion
            (show (Except.error e : Except ParseError Statement) =
              .ok (.S_Block ch) from congrArg Prod.fst h)
        | ok ch2 =>
          rw [hbc] at h
          have h2 : Statement.S_Block ch2 = .S_Block ch :=
            Except.ok.inj (congrArg Prod.fst h)
          injection h2 with h2
          subst h2
          exact blockChildren_no_empty k inner ch2 hbc
  · intro n
    rw [parseBlock_ok (n + 1)
        [Token.T_CodeBlock (List.replicate n Token.T_Semicolon)] []
        (List.replicate n Token.T_Semicolon) rfl,
      blockChildren_replicate n]

/-- Witness for C2's first conjunct at a concrete block of one
terminator. -/
theorem C2_block_no_empty_inst : Statement.S_Empty ∉ ([] : List Statement) :=
  C2_block_no_empty.1 3 [Token.T_CodeBlock [Token.T_Semicolon]] [] [] rfl

/-- Claim C10: the top-level `parse` returns every consumed statement in
cursor order, Empty statements included.  For every token stream, each
statement `consume_statement` yields — an Empty node as much as any other
— is prepended unfiltered to the parse of the remaining cursor (first
conjunct), an exhausted cursor yields the empty sequence (second
conjunct), and in particular a top-level stream of `n` bare terminators
parses to `n` Empty nodes (third conjunct) — the Empty-filtering
invariant lives only inside Block construction. -/
theorem C10_top_level_unfiltered :
    (∀ (fuel : Nat) (t : Token) (ts rest : List Token) (st : Statement)
        (sx : List Statement),
        consumeStatement fuel (t :: ts) = (.ok st, rest) →
        parse fuel rest = .ok sx →
        parse (fuel + 1) (t :: ts) = .ok (st :: sx)) ∧
    (∀ fuel : Nat, parse fuel [] = .ok []) ∧
    (∀ n : Nat,
        parse (n + 1) (List.replicate n Token.T_Semicolon) =
          .ok (List.replicate n Statement.S_Empty)) := by
  refine ⟨?_, ?_, ?_⟩
  · intro fuel t ts rest st sx h1 h2
    show parseStatements (fuel + 1) (t :: ts) = _
    have h2' : parseStatements fuel rest = .ok sx := h2
    rw [parseStatements_cons_ok fuel t ts rest st h1, h2']
  · intro fuel
    exact parseStatements_nil fuel
  · intro n
    induction n with
    | zero => rfl
    | succ k ih =>
      show parseStatements (k + 1 + 1)
          (List.replicate (k + 1) Token.T_Semicolon) = _
      have ih' : parseStatements (k + 1)
          (List.replicate k Token.T_Semicolon) =
          .ok (List.replicate k Statement.S_Empty) := ih
      rw [List.replicate_succ,
        parseStatements_cons_ok (k + 1) Token.T_Semicolon
          (List.replicate k Token.T_Semicolon)
          (List.replicate k Token.T_Semicolon) .S_Empty rfl,
        ih', List.replicate_succ]

/-- Witness for C10 at a mixed top-level stream: a bare terminator
followed by a Goto statement parses to an Empty node kept in front of the
Goto node, in cursor order. -/
theorem C10_top_level_unfiltered_inst :
    parse 3 [Token.T_Semicolon, Token.T_GOTO, Token.T_Name "L1",
        Token.T_Semicolon] =
      .ok [Statement.S_Empty, Statement.S_Goto "L1"] :=
  C10_top_level_unfiltered.1 2 Token.T_Semicolon
    [Token.T_GOTO, Token.T_Name "L1", Token.T_Semicolon]
    [Token.T_GOTO, Token.T_Name "L1", Token.T_Semicolon]
    .S_Empty [.S_Goto "L1"] rfl rfl

/-- The dispatcher routes an `IF`-headed stream to the If constructor. -/
theorem consumeStatement_IF (fuel : Nat) (rest : List Token) :
    consumeStatement (fuel + 1) (.T_IF :: rest) =
      parseIf fuel (.T_IF :: rest) :=
  rfl

/-- The dispatcher routes a `FOR`-headed stream to the For constructor. -/
theorem consumeStatement_FOR (fuel : Nat) (rest : List Token) :
    consumeStatement (fuel + 1) (.T_FOR :: rest) =
      parseFor fuel (.T_FOR :: rest) :=
  rfl

/-- One step of the If constructor on a well-formed head: the keyword and
condition paren are consumed, then everything hinges on the then-branch
parse. -/
theorem parseIf_step (fuel : Nat) (c : String) (ts0 : List Token) :
    parseIf (fuel + 1) (.T_IF :: .T_ParenExpr c :: ts0) =
      match consumeStatement fuel ts0 with
      | (.error e, ts') => (.error e, ts')
      | (.ok thenSt, ts3) =>
        if hasKind .kELSE ts3 then
          match consumeTok .kELSE ts3 with
          | (.error e, ts') => (.error e, ts')
          | (.ok _, ts4) =>
            match consumeStatement fuel ts4 with
            | (.error e, ts') => (.error e, ts')
            | (.ok elseSt, ts5) =>
              (.ok (.S_If (parseExpr c) thenSt elseSt), ts5)
        else
          (.ok (.S_If (parseExpr c) thenSt .S_Empty), ts3) :=
  rfl

/-- The If constructor once the then-branch parse is known. -/
theorem parseIf_then_ok (fuel : Nat) (c : String) (ts0 ts1 : List Token)
    (thenSt : Statement) (h : consumeStatement fuel ts0 = (.ok thenSt, ts1)) :
    parseIf (fuel + 1) (.T_IF :: .T_ParenExpr c :: ts0) =
      if hasKind .kELSE ts1 then
        match consumeTok .kELSE ts1 with
        | (.error e, ts') => (.error e, ts')
        | (.ok _, ts4) =>
          match consumeStatement fuel ts4 with
          | (.error e, ts') => (.error e, ts')
          | (.ok elseSt, ts5) =>
            (.ok (.S_If (parseExpr c) thenSt elseSt), ts5)
      else
        (.ok (.S_If (parseExpr c) thenSt .S_Empty), ts1) := by
  rw [parseIf_step, h]

/-- The If constructor once the then-branch parse is known and an `ELSE`
keyword follows it. -/
theorem parseIf_else_ok (fuel : Nat) (c : String) (ts0 ts1 : List Token)
    (thenSt : Statement)
    (h : consumeStatement fuel ts0 = (.ok thenSt, .T_ELSE :: ts1)) :
    parseIf (fuel + 1) (.T_IF :: .T_ParenExpr c :: ts0) =
      match consumeStatement fuel ts1 with
      | (.error e, ts') => (.error e, ts')
      | (.ok elseSt, ts5) =>
        (.ok (.S_If (parseExpr c) thenSt elseSt), ts5) := by
  rw [parseIf_step, h]
  rfl

/-- Claim C6: an If constructed with no `ELSE` keyword after its
then-branch carries a synthetic Empty node as its else-branch (never an
absent one); with `ELSE` present, the else-branch is the result of a full
`consume_statement` call. -/
theorem C6_if_else_empty :
    (∀ (fuel : Nat) (c : String) (ts0 ts1 : List Token) (thenSt : Statement),
        consumeStatement fuel ts0 = (.ok thenSt, ts1) →
        hasKind .kELSE ts1 = false →
        consumeStatement (fuel + 1 + 1)
            (Token.T_IF :: Token.T_ParenExpr c :: ts0) =
          (.ok (.S_If (parseExpr c) thenSt .S_Empty), ts1)) ∧
    (∀ (fuel : Nat) (c : String) (ts0 ts1 ts2 : List Token)
        (thenSt elseSt : Statement),
        consumeStatement fuel ts0 = (.ok thenSt, Token.T_ELSE :: ts1) →
        consumeStatement fuel ts1 = (.ok elseSt, ts2) →
        consumeStatement (fuel + 1 + 1)
            (Token.T_IF :: Token.T_ParenExpr c :: ts0) =
          (.ok (.S_If (parseExpr c) thenSt elseSt), ts2)) := by
  constructor
  · intro fuel c ts0 ts1 thenSt h1 h2
    rw [consumeStatement_IF, parseIf_then_ok fuel c ts0 ts1 thenSt h1, h2]
    rfl
  · intro fuel c ts0 ts1 ts2 thenSt elseSt h1 h2
    rw [consumeStatement_IF, parseIf_else_ok fuel c ts0 ts1 thenSt h1, h2]

/-- Witness for C6 at the spec's example `IF (x) { RETURN; }` with no
else clause: the else-branch is an Empty node. -/
theorem C6_if_else_empty_inst :
    consumeStatement 6
        [Token.T_IF, Token.T_ParenExpr "x",
          Token.T_CodeBlock [Token.T_RETURN, Token.T_Semicolon]] =
      (.ok (.S_If (parseExpr "x")
        (.S_Block [.S_Return (.E_Literal "0")]) .S_Empty), []) :=
  C6_if_else_empty.1 4 "x"
    [Token.T_CodeBlock [Token.T_RETURN, Token.T_Semicolon]] []
    (.S_Block [.S_Return (.E_Literal "0")]) rfl rfl

/-- One step of the For constructor on a well-formed head: the keyword and
the pre-split for-paren are consumed; the condition sub-stream is parsed
as one expression, the init and iteration sub-streams as statement lists,
the body from the outer cursor. -/
theorem parseFor_step (fuel : Nat) (i : List Token) (c : String)
    (it rest : List Token) :
    parseFor (fuel + 1) (.T_FOR :: .T_ParenFor i c it :: rest) =
      match parseStatements fuel i with
      | .error e => (.error e, rest)
      | .ok initSts =>
        match parseStatements fuel it with
        | .error e => (.error e, rest)
        | .ok iterSts =>
          match consumeStatement fuel rest with
          | (.error e, ts') => (.error e, ts')
          | (.ok body, ts3) =>
            (.ok (.S_For initSts (parseExpr c) iterSts body), ts3) :=
  rfl

/-- Claim C7: the three pre-split sub-streams of a For clause are parsed
independently of each other: the init sub-stream as zero-or-more
statements in stream order, the iteration sub-stream likewise, the
condition sub-stream as exactly one expression, and the loop body as one
statement from the outer cursor — the result is assembled from the four
independent parses. -/
theorem C7_for_substreams (fuel : Nat) (i : List Token) (c : String)
    (it rest ts' : List Token) (xs ys : List Statement) (b : Statement)
    (h1 : parseStatements fuel i = .ok xs)
    (h2 : parseStatements fuel it = .ok ys)
    (h3 : consumeStatement fuel rest = (.ok b, ts')) :
    consumeStatement (fuel + 1 + 1)
        (Token.T_FOR :: Token.T_ParenFor i c it :: rest) =
      (.ok (.S_For xs (parseExpr c) ys b), ts') := by
  rw [consumeStatement_FOR, parseFor_step, h1, h2, h3]

/-- Witness for C7 at the spec's example
`FOR ({i=0;}; i<10; {i=i+1;}) { }`: one init statement, the condition
expression, one iteration statement, and the block body. -/
theorem C7_for_substreams_inst :
    consumeStatement 4
        [Token.T_FOR,
          Token.T_ParenFor
            [Token.T_SET, Token.T_Name "i", Token.T_Rvalue "=" "0",
              Token.T_Semicolon]
            "i<10"
            [Token.T_SET, Token.T_Name "i", Token.T_Rvalue "=" "i+1",
              Token.T_Semicolon],
          Token.T_CodeBlock []] =
      (.ok (.S_For
        [.S_Assign (.E_Variable "i" none) "=" (parseExpr "0")]
        (parseExpr "i<10")
        [.S_Assign (.E_Variable "i" none) "=" (parseExpr "i+1")]
        (.S_Block [])), []) :=
  C7_for_substreams 2
    [Token.T_SET, Token.T_Name "i", Token.T_Rvalue "=" "0",
      Token.T_Semicolon]
    "i<10"
    [Token.T_SET, Token.T_Name "i", Token.T_Rvalue "=" "i+1",
      Token.T_Semicolon]
    [Token.T_CodeBlock []] []
    [.S_Assign (.E_Variable "i" none) "=" (parseExpr "0")]
    [.S_Assign (.E_Variable "i" none) "=" (parseExpr "i+1")]
    (.S_Block []) rfl rfl rfl

/-- Rebinding a bound node overwrites its previous parent reference. -/
theorem bindAnn_bindAnn {α : Type} (a : Ann α) (p1 p : List Nat) :
    bindAnn (bindAnn a p1) p = bindAnn a p :=
  rfl

/-- Rebinding a list of bound expression nodes overwrites the previous
parent references. -/
theorem bindAnn_map_map (l : List (Ann Expression)) (p1 p : List Nat) :
    (l.map (fun a => bindAnn a p1)).map (fun a => bindAnn a p) =
      l.map (fun a => bindAnn a p) := by
  induction l with
  | nil => rfl
  | cons a l ih =>
    simp only [List.map_cons]
    rw [ih, bindAnn_bindAnn]

/-- Rebinding an optional bound expression node overwrites the previous
parent reference. -/
theorem bindAnn_omap_omap (v : Option (Ann Expression)) (p1 p : List Nat) :
    (v.map (fun a => bindAnn a p1)).map (fun a => bindAnn a p) =
      v.map (fun a => bindAnn a p) := by
  cases v <;> rfl

mutual

/-- A second binding pass over an already-bound subtree produces exactly
the binding pass over the original subtree: every parent reference is
simply overwritten, regardless of the first pass's path and parent. -/
theorem bindA_overwrite : ∀ (t : AStmt) (p1 r1 p r : List Nat),
    bindA (bindA t p1 r1) p r = bindA t p r
  | .aEmpty _, _, _, _, _ => rfl
  | .aComment _ _, _, _, _, _ => rfl
  | .aGoto _ _, _, _, _, _ => rfl
  | .aLabel _ _, _, _, _, _ => rfl
  | .aCall n args _, p1, r1, p, r => by
    show AStmt.aCall n
        ((args.map (fun a => bindAnn a p1)).map (fun a => bindAnn a p))
        (some r) = AStmt.aCall n (args.map (fun a => bindAnn a p)) (some r)
    rw [bindAnn_map_map]
  | .aFunction n args b _, p1, r1, p, r => by
    show AStmt.aFunction n args
        (bindA (bindA b (p1 ++ [0]) p1) (p ++ [0]) p) (some r) =
      AStmt.aFunction n args (bindA b (p ++ [0]) p) (some r)
    rw [bindA_overwrite b (p1 ++ [0]) p1 (p ++ [0]) p]
  | .aReturn v _, _, _, _, _ => rfl
  | .aCase v _, _, _, _, _ => rfl
  | .aDefault _, _, _, _, _ => rfl
  | .aBreak _, _, _, _, _ => rfl
  | .aContinue _, _, _, _, _ => rfl
  | .aBlock ch _, p1, r1, p, r => by
    show AStmt.aBlock
        (bindAList (bindAList ch p1 (p1 ++ [0]) 0) p (p ++ [0]) 0) (some r) =
      AStmt.aBlock (bindAList ch p (p ++ [0]) 0) (some r)
    rw [bindAList_overwrite ch p1 (p1 ++ [0]) 0 p (p ++ [0]) 0]
  | .aVar v val _, p1, r1, p, r => by
    show AStmt.aVar (bindAnn (bindAnn v p1) p)
        ((val.map (fun a => bindAnn a p1)).map (fun a => bindAnn a p))
        (some r) =
      AStmt.aVar (bindAnn v p) (val.map (fun a => bindAnn a p)) (some r)
    rw [bindAnn_omap_omap, bindAnn_bindAnn]
  | .aAssign v o val _, _, _, _, _ => rfl
  | .aIf c t e _, p1, r1, p, r => by
    show AStmt.aIf (bindAnn (bindAnn c p1) p)
        (bindA (bindA t (p1 ++ [1]) p1) (p ++ [1]) p)
        (bindA (bindA e (p1 ++ [2]) p1) (p ++ [2]) p) (some r) =
      AStmt.aIf (bindAnn c p) (bindA t (p ++ [1]) p)
        (bindA e (p ++ [2]) p) (some r)
    rw [bindA_overwrite t (p1 ++ [1]) p1 (p ++ [1]) p,
      bindA_overwrite e (p1 ++ [2]) p1 (p ++ [2]) p, bindAnn_bindAnn]
  | .aWhile c b _, p1, r1, p, r => by
    show AStmt.aWhile (bindAnn (bindAnn c p1) p)
        (bindA (bindA b (p1 ++ [1]) p1) (p ++ [1]) p) (some r) =
      AStmt.aWhile (bindAnn c p) (bindA b (p ++ [1]) p) (some r)
    rw [bindA_overwrite b (p1 ++ [1]) p1 (p ++ [1]) p, bindAnn_bindAnn]
  | .aDoWhile c b _, p1, r1, p, r => by
    show AStmt.aDoWhile (bindAnn (bindAnn c p1) p)
        (bindA (bindA b (p1 ++ [1]) p1) (p ++ [1]) p) (some r) =
      AStmt.aDoWhile (bindAnn c p) (bindA b (p ++ [1]) p) (some r)
    rw [bindA_overwrite b (p1 ++ [1]) p1 (p ++ [1]) p, bindAnn_bindAnn]
  | .aFor ini c ite b _, p1, r1, p, r => by
    show AStmt.aFor
        (bindAList (bindAList ini p1 (p1 ++ [0]) 0) p (p ++ [0]) 0)
        (bindAnn (bindAnn c p1) p)
        (bindAList (bindAList ite p1 (p1 ++ [2]) 0) p (p ++ [2]) 0)
        (bindA (bindA b (p1 ++ [3]) p1) (p ++ [3]) p) (some r) =
      AStmt.aFor (bindAList ini p (p ++ [0]) 0) (bindAnn c p)
        (bindAList ite p (p ++ [2]) 0) (bindA b (p ++ [3]) p) (some r)
    rw [bindAList_overwrite ini p1 (p1 ++ [0]) 0 p (p ++ [0]) 0,
      bindAList_overwrite ite p1 (p1 ++ [2]) 0 p (p ++ [2]) 0,
      bindA_overwrite b (p1 ++ [3]) p1 (p ++ [3]) p, bindAnn_bindAnn]
  | .aSwitch v b _, p1, r1, p, r => by
    show AStmt.aSwitch (bindAnn (bindAnn v p1) p)
        (bindA (bindA b (p1 ++ [1]) p1) (p ++ [1]) p) (some r) =
      AStmt.aSwitch (bindAnn v p) (bindA b (p ++ [1]) p) (some r)
    rw [bindA_overwrite b (p1 ++ [1]) p1 (p ++ [1]) p, bindAnn_bindAnn]

/-- A second binding pass over an already-bound statement list produces
exactly the binding pass over the original list. -/
theorem bindAList_overwrite : ∀ (l : AStmtList) (o1 b1 : List Nat) (i1 : Nat)
    (o b : List Nat) (i : Nat),
    bindAList (bindAList l o1 b1 i1) o b i = bindAList l o b i
  | .anil, _, _, _, _, _, _ => rfl
  | .acons s rest, o1, b1, i1, o, b, i => by
    show AStmtList.acons (bindA (bindA s (b1 ++ [i1]) o1) (b ++ [i]) o)
        (bindAList (bindAList rest o1 b1 (i1 + 1)) o b (i + 1)) =
      AStmtList.acons (bindA s (b ++ [i]) o) (bindAList rest o b (i + 1))
    rw [bindA_overwrite s (b1 ++ [i1]) o1 (b ++ [i]) o,
      bindAList_overwrite rest o1 b1 (i1 + 1) o b (i + 1)]

end

/-- Claim C8: the parent-binding pass is idempotent — binding a tree twice
at the same path to the same parent yields exactly the same parent
assignment at every node as binding it once — and re-binding to a
different parent simply overwrites the previous parent references. -/
theorem C8_bind_idempotent :
    (∀ (t : AStmt) (π ρ : List Nat),
        bindA (bindA t π ρ) π ρ = bindA t π ρ) ∧
    (∀ (t : AStmt) (π ρ1 ρ2 : List Nat),
        bindA (bindA t π ρ1) π ρ2 = bindA t π ρ2) :=
  ⟨fun t π ρ => bindA_overwrite t π ρ π ρ,
    fun t π ρ1 ρ2 => bindA_overwrite t π ρ1 π ρ2⟩

/-- Counterexample for C9: the claim that every Statement variant supports
no-cursor construction fails on the code — `S_Default.__init__`,
`S_Break.__init__` and `S_Continue.__init__` dereference the absent
cursor (`tw.consume(...)` with `tw=None`) instead of returning a synthetic
node. -/
theorem C9_no_cursor_counterexample :
    noCursorNew StKind.sDefault ≠ .ok () ∧
    noCursorNew StKind.sDefault = .error .noneDereference ∧
    noCursorNew StKind.sBreak = .error .noneDereference ∧
    noCursorNew StKind.sContinue = .error .noneDereference :=
  ⟨fun h => Except.noConfusion h, rfl, rfl, rfl⟩

/-- Claim C9 as amended: every Statement variant other than Default,
Break and Continue supports no-cursor construction — its constructor
guards the absent cursor and returns a synthetic node without consuming
or requiring any tokens. -/
theorem C9_no_cursor_amended (k : StKind) (h1 : k ≠ .sDefault)
    (h2 : k ≠ .sBreak) (h3 : k ≠ .sContinue) : noCursorNew k = .ok () := by
  cases k <;> first
    | rfl
    | exact absurd rfl h1
    | exact absurd rfl h2
    | exact absurd rfl h3

/-- Witness for the amended C9 at the Goto variant. -/
theorem C9_no_cursor_amended_inst : noCursorNew StKind.sGoto = .ok () :=
  C9_no_cursor_amended .sGoto (by decide) (by decide) (by decide)

end SDSCP
